import Mathlib

set_option autoImplicit false
set_option maxRecDepth 16384

/-!
Shallow embedding of the medication/test validation pipeline
(`src/services/medication_tests_validation_service.py`, `src/models/schemas.py`,
`src/config.py`) and proofs about it.

Conventions of the embedding:
* decoded JSON values (the result of Python `json.loads`) are the inductive
  type `Json`; a JSON number carries the exact rational value of the decoded
  Python number, and the `float()` coercion of strings is modelled with
  IEEE-754 binary64 round-to-nearest-even semantics (`roundPosRatToDouble`),
  including infinities and nan;
* fallible Python code (pydantic validation, `float()` coercion, KeyError on
  subscripting) returns `Option`/`Except`: `none`/`.error` models a raised
  exception.  All exceptions inside `parse_validation_response` are caught and
  re-raised as one wrapped parse error, so a single `none` is faithful;
* the wall clock consumed by `ValidationResponse`'s timestamp default factory
  is passed in explicitly as a `now : String` argument;
* the external completion endpoint is abstracted as an oracle
  `Nat → AttemptOutcome` giving the outcome of each attempt, indexed from 0.
-/

/-- Decoded JSON values, as produced by Python `json.loads`. -/
inductive Json where
  | null : Json
  | bool : Bool → Json
  | num : ℚ → Json
  | str : String → Json
  | arr : List Json → Json
  | obj : List (String × Json) → Json
deriving Repr

/-- Association-list lookup on the key/value pairs of a JSON object
(Python dict lookup; `json.loads` never yields duplicate keys). -/
def lookupStr (kvs : List (String × Json)) (k : String) : Option Json :=
  (kvs.find? (fun kv => kv.1 = k)).map (fun kv => kv.2)

/-- Python `d[k]` on a decoded JSON value: raises (returns `none`) when the
value is not a dict or the key is missing. -/
def Json.get? (j : Json) (k : String) : Option Json :=
  match j with
  | .obj kvs => lookupStr kvs k
  | _ => none

/-- Python `d.get(k, default)` on a decoded JSON value: raises (returns
`none`) when the value is not a dict, otherwise yields the stored value or
the default. -/
def Json.getD? (j : Json) (k : String) (d : Json) : Option Json :=
  match j with
  | .obj kvs => some ((lookupStr kvs k).getD d)
  | _ => none

/-- Pydantic validation of a `str` field: accepts exactly JSON strings. -/
def asStr : Json → Option String
  | .str s => some s
  | _ => none

/-- Pydantic validation of an `Optional[str]` field from a possibly absent
key: absent or JSON null become `None`, a string is kept, anything else is a
validation error. -/
def asOptStr : Option Json → Option (Option String)
  | none => some none
  | some .null => some none
  | some (.str s) => some (some s)
  | some _ => none

/-- Python iteration (`for x in v`) over a decoded JSON value: lists yield
their elements, strings their characters, dicts their keys; other values
raise TypeError. -/
def asIterList : Json → Option (List Json)
  | .arr l => some l
  | .str s => some (s.toList.map (fun c => Json.str (String.mk [c])))
  | .obj kvs => some (kvs.map (fun kv => Json.str kv.1))
  | _ => none

/-- Base codepoints of the Unicode decimal-digit (Nd) runs: each base `b`
starts a run `b .. b+9` of digits 0-9.  CPython's `float()` maps any such
digit to its ASCII counterpart before parsing
(`_PyUnicode_TransformDecimalAndSpaceToASCII`). -/
def ndDigitBases : List ℕ :=
  [48, 1632, 1776, 1984, 2406, 2534, 2662, 2790, 2918, 3046,
   3174, 3302, 3430, 3558, 3664, 3792, 3872, 4160, 4240, 6112,
   6160, 6470, 6608, 6784, 6800, 6992, 7088, 7232, 7248, 42528,
   43216, 43264, 43472, 43504, 43600, 44016, 65296, 66720, 68912, 69734,
   69872, 69942, 70096, 70384, 70736, 70864, 71248, 71360, 71472, 71904,
   72016, 72784, 73040, 73120, 92768, 92864, 93008, 120782, 120792, 120802,
   120812, 120822, 123200, 123632, 125264, 130032]

/-- Decimal value of a Unicode digit character, if it is one. -/
def digitVal? (c : Char) : Option ℕ :=
  (ndDigitBases.find? (fun b => decide (b ≤ c.toNat) && decide (c.toNat ≤ b + 9))).map
    (fun b => c.toNat - b)

/-- Codepoints CPython's `float()` treats as ignorable surrounding
whitespace (`Py_UNICODE_ISSPACE`). -/
def pySpaceCodes : List ℕ :=
  [9, 10, 11, 12, 13, 32, 133, 160, 5760, 8192,
   8193, 8194, 8195, 8196, 8197, 8198, 8199, 8200, 8201, 8202,
   8232, 8233, 8239, 8287, 12288]

/-- Whether `float()` strips this character at either end of its input. -/
def pyIsSpace (c : Char) : Bool :=
  pySpaceCodes.contains c.toNat

/-- The whitespace stripping `float()` performs on its string argument. -/
def pyStrip (s : String) : List Char :=
  ((s.toList.dropWhile pyIsSpace).reverse.dropWhile pyIsSpace).reverse

/-- PEP-515 underscore handling of `float()`: every underscore must sit
between two digits and is then dropped; otherwise the whole string is
invalid.  The second argument tracks whether the previous character was a
digit. -/
def removeUnderscores : List Char → Bool → Option (List Char)
  | [], _ => some []
  | c :: rest, prevDigit =>
    if c = '_' then
      if prevDigit then
        match rest with
        | c2 :: _ => if (digitVal? c2).isSome then removeUnderscores rest false else none
        | [] => none
      else none
    else
      (removeUnderscores rest (digitVal? c).isSome).map (fun l => c :: l)

/-- Longest leading run of decimal digits, as digit values, with the rest of
the input. -/
def digitsCore : List Char → List ℕ × List Char
  | [] => ([], [])
  | c :: rest =>
    match digitVal? c with
    | some d =>
      let p := digitsCore rest
      (d :: p.1, p.2)
    | none => ([], c :: rest)

/-- Numeric value of a run of decimal digit values. -/
def natOfDigits (l : List ℕ) : ℕ :=
  l.foldl (fun n d => n * 10 + d) 0

/-- Result of Python `float()`: a finite binary64 value (carried as its
exact rational value), a signed infinity, or nan. -/
inductive PyFloatVal where
  | finite : ℚ → PyFloatVal
  | inf : Bool → PyFloatVal
  | nan : PyFloatVal
deriving Repr, DecidableEq

/-- Fuelled floor of log2 (`natLog2 n` is exact for `1 ≤ n`). -/
def natLog2Go : ℕ → ℕ → ℕ
  | 0, _ => 0
  | fuel + 1, n => if 2 ≤ n then natLog2Go fuel (n / 2) + 1 else 0

/-- Floor of the base-2 logarithm of a positive natural number. -/
def natLog2 (n : ℕ) : ℕ := natLog2Go n n

/-- Whether the positive rational `n / d` is at least `2 ^ e`. -/
def ratGePow2 (n d : ℕ) (e : ℤ) : Bool :=
  if 0 ≤ e then decide (d * 2 ^ e.toNat ≤ n) else decide (d ≤ n * 2 ^ (-e).toNat)

/-- Round the rational `x / y` to the nearest natural number, ties to
even. -/
def roundHalfEven (x y : ℕ) : ℕ :=
  let q := x / y
  let r := x % y
  if 2 * r < y then q
  else if y < 2 * r then q + 1
  else if q % 2 = 0 then q else q + 1

/-- IEEE-754 binary64 rounding (round to nearest, ties to even) of the
positive rational `n / d`, with the given sign: compute the binade exponent
`e`, quantise to the 53-bit (or subnormal) grid, and overflow to infinity
when the rounded magnitude reaches `2 ^ 1024`. -/
def roundPosRatToDouble (n d : ℕ) (neg : Bool) : PyFloatVal :=
  let e0 : ℤ := (natLog2 n : ℤ) - (natLog2 d : ℤ)
  let e : ℤ := if ratGePow2 n d e0 then e0 else e0 - 1
  let p : ℤ := max (e - 52) (-1074)
  let m : ℕ :=
    if 0 ≤ p then roundHalfEven n (d * 2 ^ p.toNat)
    else roundHalfEven (n * 2 ^ (-p).toNat) d
  if 0 ≤ p ∧ 2 ^ 1024 ≤ m * 2 ^ p.toNat then .inf neg
  else
    let v : ℚ :=
      if 0 ≤ p then mkRat (Int.ofNat (m * 2 ^ p.toNat)) 1
      else mkRat (Int.ofNat m) (2 ^ (-p).toNat)
    .finite (if neg then -v else v)

/-- Binary64 value of the decimal `m × 10 ^ e` (`len` bounds the digit count
of `m`): decimal magnitudes beyond the double range collapse to infinity or
zero directly (they are far past the overflow/underflow thresholds), the
rest is rounded exactly. -/
def mkDouble (neg : Bool) (m : ℕ) (e : ℤ) (len : ℕ) : PyFloatVal :=
  if m = 0 then .finite 0
  else if 500 < e then .inf neg
  else if e + (len : ℤ) < -500 then .finite 0
  else if 0 ≤ e then roundPosRatToDouble (m * 10 ^ e.toNat) 1 neg
  else roundPosRatToDouble m (10 ^ (-e).toNat) neg

/-- The decimal part of the `float()` grammar:
`digits ["." digits] [("e"|"E") [sign] digits]` with at least one mantissa
digit, valued by binary64 rounding. -/
def parseDecimalPy (l : List Char) (neg : Bool) : Option PyFloatVal :=
  let pInt := digitsCore l
  let ints := pInt.1
  let pFrac :=
    match pInt.2 with
    | '.' :: r => digitsCore r
    | _ => ([], pInt.2)
  let fracs := pFrac.1
  if ints.isEmpty && fracs.isEmpty then none
  else
    let m := natOfDigits (ints ++ fracs)
    let len := ints.length + fracs.length
    match pFrac.2 with
    | [] => some (mkDouble neg m (-(fracs.length : ℤ)) len)
    | c :: r3 =>
      if c = 'e' ∨ c = 'E' then
        let pSign : Bool × List Char :=
          match r3 with
          | '+' :: r => (false, r)
          | '-' :: r => (true, r)
          | _ => (false, r3)
        let pExp := digitsCore pSign.2
        if pExp.1.isEmpty || !pExp.2.isEmpty then none
        else
          let ev : ℤ :=
            if pSign.1 then -(natOfDigits pExp.1 : ℤ) else (natOfDigits pExp.1 : ℤ)
          some (mkDouble neg m (ev - (fracs.length : ℤ)) len)
      else none

/-- The unsigned part of the `float()` grammar: the case-insensitive
literals inf/infinity/nan, or a decimal number. -/
def parseUnsignedPy (l : List Char) (neg : Bool) : Option PyFloatVal :=
  let low := l.map Char.toLower
  if low = ['i', 'n', 'f'] ∨ low = ['i', 'n', 'f', 'i', 'n', 'i', 't', 'y'] then
    some (.inf neg)
  else if low = ['n', 'a', 'n'] then some .nan
  else parseDecimalPy l neg

/-- Python `float()` applied to a string: strip surrounding whitespace,
validate and drop digit-group underscores, take an optional sign, then an
inf/nan literal or a decimal number rounded to binary64. -/
def pyFloatOfString (s : String) : Option PyFloatVal :=
  match removeUnderscores (pyStrip s) false with
  | none => none
  | some l =>
    match l with
    | '+' :: rest => parseUnsignedPy rest false
    | '-' :: rest => parseUnsignedPy rest true
    | _ => parseUnsignedPy l false

/-- Python `float()` applied to a decoded JSON value: numbers pass through
with their exact value (a decoded float is already a double and `float()` is
the identity on it; for a decoded integer Python rounds or overflows, which
never changes whether the result lies in [0, 1] since 0 and 1 are exact),
booleans coerce to 1/0, strings go through the string grammar, and
everything else raises TypeError. -/
def pyFloat : Json → Option PyFloatVal
  | .num q => some (.finite q)
  | .bool b => some (.finite (if b then 1 else 0))
  | .str s => pyFloatOfString s
  | _ => none

/-- Exact value of the binary64 double denoted by the Python literal `0.85`,
the default the service supplies for a missing confidence score. -/
def float0_85 : ℚ := mkRat 7656119366529843 9007199254740992

/-- Python `x > 1.0` on a `float()` result. -/
def PyFloatVal.gtOne : PyFloatVal → Prop
  | .finite q => 1 < q
  | .inf neg => neg = false
  | .nan => False

/-- Python `x < 0.0` on a `float()` result. -/
def PyFloatVal.ltZero : PyFloatVal → Prop
  | .finite q => q < 0
  | .inf neg => neg = true
  | .nan => False

/-! Typed response models from `src/models/schemas.py`. -/

/-- Mirror of `schemas.DetailedValidation`: item, severity, issue,
recommendation required, evidence optional.  Note: the source declares no
validator on `severity`. -/
structure DetailedValidation where
  item : String
  severity : String
  issue : String
  recommendation : String
  evidence : Option String
deriving Repr, DecidableEq

/-- Mirror of `schemas.RecommendedAlternative`: all three fields required. -/
structure RecommendedAlternative where
  original_item : String
  alternative : String
  rationale : String
deriving Repr, DecidableEq

/-- Mirror of `schemas.QuickSummary`. -/
structure QuickSummary where
  overall_status : String
  top_priority : String
deriving Repr, DecidableEq

/-- The `allowed` list of `QuickSummary.validate_status`. -/
def statusAllowed : List String := ["SAFE", "CAUTION", "CONTRAINDICATED"]

/-- The severity level constants of `config.Severity` (defined in the source
but referenced by no validator). -/
def severityLevels : List String := ["critical", "high", "moderate", "low", "info"]

/-- Mirror of `schemas.ValidationResponse`; `timestamp` is the string the
default factory produced at construction time. -/
structure ValidationResponse where
  quick_summary : QuickSummary
  detailed_validations : List DetailedValidation
  recommended_alternatives : List RecommendedAlternative
  confidence_score : ℚ
  timestamp : String
deriving Repr, DecidableEq

/-- Pydantic construction `QuickSummary(overall_status=osJ, top_priority=tpJ)`
from raw JSON values: both fields must be strings and `overall_status` must
pass `validate_status`. -/
def mkQuickSummary (osJ tpJ : Json) : Option QuickSummary := do
  let os ← asStr osJ
  if os ∈ statusAllowed then
    let tp ← asStr tpJ
    pure { overall_status := os, top_priority := tp }
  else none

/-- Pydantic construction `DetailedValidation(**v)`: `v` must be a mapping
supplying item, severity, issue, recommendation as strings; evidence is
optional.  No check constrains the severity string. -/
def mkDetailedValidation : Json → Option DetailedValidation
  | .obj kvs => do
    let itemJ ← lookupStr kvs "item"
    let sevJ ← lookupStr kvs "severity"
    let issJ ← lookupStr kvs "issue"
    let recJ ← lookupStr kvs "recommendation"
    let item ← asStr itemJ
    let sev ← asStr sevJ
    let iss ← asStr issJ
    let recomm ← asStr recJ
    let ev ← asOptStr (lookupStr kvs "evidence")
    pure { item := item, severity := sev, issue := iss,
           recommendation := recomm, evidence := ev }
  | _ => none

/-- Pydantic construction `RecommendedAlternative(**v)`: `v` must be a
mapping supplying original_item, alternative, rationale as strings. -/
def mkRecommendedAlternative : Json → Option RecommendedAlternative
  | .obj kvs => do
    let oJ ← lookupStr kvs "original_item"
    let aJ ← lookupStr kvs "alternative"
    let rJ ← lookupStr kvs "rationale"
    let o ← asStr oJ
    let a ← asStr aJ
    let r ← asStr rJ
    pure { original_item := o, alternative := a, rationale := r }
  | _ => none

/-- Lines 89-92 of the service: read `quick_summary.overall_status` and
`quick_summary.top_priority` by subscripting and build a `QuickSummary`. -/
def parseQuickSummary (api : Json) : Option QuickSummary := do
  let qsJ ← api.get? "quick_summary"
  let osJ ← qsJ.get? "overall_status"
  let tpJ ← qsJ.get? "top_priority"
  mkQuickSummary osJ tpJ

/-- Lines 95-98 of the service: iterate
`api_response.get("detailed_validations", [])` building one
`DetailedValidation` per element. -/
def parseDetailed (api : Json) : Option (List DetailedValidation) := do
  let j ← api.getD? "detailed_validations" (.arr [])
  let items ← asIterList j
  items.mapM mkDetailedValidation

/-- Lines 101-104 of the service: iterate
`api_response.get("recommended_alternatives", [])` building one
`RecommendedAlternative` per element. -/
def parseAlternatives (api : Json) : Option (List RecommendedAlternative) := do
  let j ← api.getD? "recommended_alternatives" (.arr [])
  let items ← asIterList j
  items.mapM mkRecommendedAlternative

/-- Line 107 of the service:
`float(api_response.get("confidence_score", 0.85))`. -/
def parseConfidence (api : Json) : Option PyFloatVal := do
  let j ← api.getD? "confidence_score" (.num float0_85)
  pyFloat j

/-- The service's `parse_validation_response`: extract the four field groups,
then construct `ValidationResponse`, whose pydantic model enforces
`confidence_score` in [0, 1] (`Field(..., ge=0.0, le=1.0)`) and stamps
`timestamp` from the clock (`now`).  Any failure anywhere is caught and
re-raised as one wrapped parse error (`none`). -/
def parse_validation_response (now : String) (api : Json) : Option ValidationResponse :=
  match parseQuickSummary api, parseDetailed api, parseAlternatives api, parseConfidence api with
  | some qs, some dvs, some ras, some (.finite cs) =>
    if (0 : ℚ) ≤ cs ∧ cs ≤ 1 then
      some { quick_summary := qs, detailed_validations := dvs,
             recommended_alternatives := ras, confidence_score := cs,
             timestamp := now }
    else none
  | _, _, _, _ => none

/-! The completion client `call_openai` (service lines 33-75) and its retry
loop, and the orchestrator `validate` (lines 124-149). -/

/-- Outcome of one attempt of the external completion call: the service call
raises, or it returns text that `json.loads` rejects, or it returns text
decoding to a JSON value. -/
inductive AttemptOutcome where
  | serviceError : String → AttemptOutcome
  | nonJson : AttemptOutcome
  | jsonOk : Json → AttemptOutcome
deriving Repr

/-- Whether an attempt outcome makes the loop body fail. -/
def AttemptOutcome.isFailure : AttemptOutcome → Bool
  | .serviceError _ => true
  | .nonJson => true
  | .jsonOk _ => false

/-- Terminal errors `call_openai` can raise. -/
inductive CallError where
  | parseJsonFailure : CallError
  | apiFailure : String → CallError
  | maxRetriesReached : CallError
deriving Repr, DecidableEq

/-- The exact message strings the source attaches to each terminal error. -/
def CallError.message : CallError → String
  | .parseJsonFailure => "Failed to parse OpenAI response as JSON"
  | .apiFailure m => "OpenAI API call failed: " ++ m
  | .maxRetriesReached => "Max retry attempts reached"

/-- Terminal error raised on the final attempt, by the class of that
attempt's failure (`except json.JSONDecodeError` vs `except Exception`). -/
def terminalError : AttemptOutcome → CallError
  | .nonJson => .parseJsonFailure
  | .serviceError m => .apiFailure m
  | .jsonOk _ => .maxRetriesReached

/-- The retry loop `for attempt in range(maxRetries)` of `call_openai`,
unrolled from attempt index `i` with `fuel = maxRetries - i` remaining
iterations.  Returns the result together with the total number of attempts
performed.  A failing attempt retries unless `i` is the last index, in which
case the distinguishing terminal error is raised; falling out of the loop
(possible only when `maxRetries = 0`) raises the max-retry error. -/
def callFromAux (att : ℕ → AttemptOutcome) (maxRetries : ℕ) :
    ℕ → ℕ → Except CallError Json × ℕ
  | 0, i => (.error .maxRetriesReached, i)
  | fuel + 1, i =>
    match att i with
    | .jsonOk v => (.ok v, i + 1)
    | .nonJson =>
      if i = maxRetries - 1 then (.error .parseJsonFailure, i + 1)
      else callFromAux att maxRetries fuel (i + 1)
    | .serviceError msg =>
      if i = maxRetries - 1 then (.error (.apiFailure msg), i + 1)
      else callFromAux att maxRetries fuel (i + 1)

/-- The `call_openai` loop run against a configured maximum attempt count. -/
def call_openai_with (att : ℕ → AttemptOutcome) (maxRetries : ℕ) :
    Except CallError Json × ℕ :=
  callFromAux att maxRetries maxRetries 0

namespace settings

/-- Default of `config.Settings.MAX_RETRY_ATTEMPTS`. -/
def MAX_RETRY_ATTEMPTS : ℕ := 3

end settings

/-- The service's `call_openai` with the configured retry maximum. -/
def call_openai (att : ℕ → AttemptOutcome) : Except CallError Json × ℕ :=
  call_openai_with att settings.MAX_RETRY_ATTEMPTS

/-! Request models (`src/models/schemas.py`) and the prompt builders of the
two orchestrators. -/

/-- Mirror of `schemas.Patient`. -/
structure Patient where
  mrn : String
  fullName : String
  gender : String
  dob : String
deriving Repr, DecidableEq

/-- Mirror of `schemas.Encounter`. -/
structure Encounter where
  visitId : String
  visitType : String
  plannedStartDate : String
  chiefComplaint : String
  patientAge : String
  diagnosis : String
deriving Repr, DecidableEq

/-- Mirror of `schemas.Diagnosis`. -/
structure Diagnosis where
  type : String
  value : String
deriving Repr, DecidableEq

/-- Mirror of `schemas.MedicationValidationRequest`. -/
structure MedicationValidationRequest where
  patient : Patient
  encounter : Encounter
  complain : String
  diagnosis : Diagnosis
  medications : List String
deriving Repr, DecidableEq

/-- Mirror of `schemas.TestValidationRequest`. -/
structure TestValidationRequest where
  patient : Patient
  encounter : Encounter
  complain : String
  diagnosis : Diagnosis
  tests : List String
deriving Repr, DecidableEq

/-- The service's `_format_medications`: one `"i. item"` line per medication,
1-indexed, joined with newlines (`"\n".join`). -/
def format_medications (medications : List String) : String :=
  String.intercalate "\n"
    (medications.enum.map (fun p => toString (p.1 + 1) ++ ". " ++ p.2))

/-- The service's `_format_tests`: same numbered rendering for tests. -/
def format_tests (tests : List String) : String :=
  String.intercalate "\n"
    (tests.enum.map (fun p => toString (p.1 + 1) ++ ". " ++ p.2))

/-- The part of the `_prepare_medication_message` f-string before the
interpolated medication list. -/
def medication_message_header (req : MedicationValidationRequest) : String :=
  "Please validate the following medication prescription for safety concerns.\n\n"
  ++ "PATIENT INFORMATION:\n"
  ++ "- MRN: " ++ req.patient.mrn ++ "\n"
  ++ "- Name: " ++ req.patient.fullName ++ "\n"
  ++ "- Gender: " ++ req.patient.gender ++ "\n"
  ++ "- Date of Birth: " ++ req.patient.dob ++ "\n"
  ++ "- Age: " ++ req.encounter.patientAge ++ "\n\n"
  ++ "ENCOUNTER INFORMATION:\n"
  ++ "- Visit ID: " ++ req.encounter.visitId ++ "\n"
  ++ "- Visit Type: " ++ req.encounter.visitType ++ "\n"
  ++ "- Date: " ++ req.encounter.plannedStartDate ++ "\n"
  ++ "- Chief Complaint: " ++ req.encounter.chiefComplaint ++ "\n"
  ++ "- Diagnosis: " ++ req.encounter.diagnosis ++ "\n\n"
  ++ "MEDICATIONS TO VALIDATE:\n"

/-- The fixed part of the `_prepare_medication_message` f-string after the
interpolated medication list (literal braces of the JSON shape written with
escapes). -/
def medication_message_footer : String :=
  "\n\nPlease analyze for:\n"
  ++ "1. Drug-drug interactions between the medications\n"
  ++ "2. Age-appropriate dosing\n"
  ++ "3. Gender-specific considerations\n"
  ++ "4. Contraindications based on the diagnosis\n"
  ++ "5. Dosage safety and appropriateness\n"
  ++ "6. Duration concerns\n"
  ++ "7. Any duplicate therapy\n\n"
  ++ "Respond with a JSON object containing:\n"
  ++ "\x7b\n  \"quick_summary\": \x7b\n"
  ++ "    \"overall_status\": \"SAFE|CAUTION|CONTRAINDICATED\",\n"
  ++ "    \"top_priority\": \"Most critical issue or 'No critical issues found'\"\n"
  ++ "  \x7d,\n"
  ++ "  \"detailed_validations\": [\n    \x7b\n"
  ++ "      \"item\": \"medication name\",\n"
  ++ "      \"severity\": \"critical|high|moderate|low|info\",\n"
  ++ "      \"issue\": \"description of the issue\",\n"
  ++ "      \"recommendation\": \"recommended action\",\n"
  ++ "      \"evidence\": \"clinical reasoning\"\n"
  ++ "    \x7d\n  ],\n"
  ++ "  \"recommended_alternatives\": [\n    \x7b\n"
  ++ "      \"original_item\": \"medication name\",\n"
  ++ "      \"alternative\": \"suggested alternative\",\n"
  ++ "      \"rationale\": \"reason for recommendation\"\n"
  ++ "    \x7d\n  ],\n"
  ++ "  \"confidence_score\": 0.95\n\x7d\n"

/-- The service's `_prepare_medication_message`: header, then the numbered
medication list, then the fixed analysis/JSON-shape instructions. -/
def prepare_medication_message (req : MedicationValidationRequest) : String :=
  medication_message_header req
  ++ format_medications req.medications
  ++ medication_message_footer

/-- The part of the `_prepare_test_message` f-string before the interpolated
test list. -/
def test_message_header (req : TestValidationRequest) : String :=
  "Please validate the following diagnostic test order for appropriateness and safety.\n\n"
  ++ "PATIENT INFORMATION:\n"
  ++ "- MRN: " ++ req.patient.mrn ++ "\n"
  ++ "- Name: " ++ req.patient.fullName ++ "\n"
  ++ "- Gender: " ++ req.patient.gender ++ "\n"
  ++ "- Date of Birth: " ++ req.patient.dob ++ "\n"
  ++ "- Age: " ++ req.encounter.patientAge ++ "\n\n"
  ++ "ENCOUNTER INFORMATION:\n"
  ++ "- Visit ID: " ++ req.encounter.visitId ++ "\n"
  ++ "- Visit Type: " ++ req.encounter.visitType ++ "\n"
  ++ "- Date: " ++ req.encounter.plannedStartDate ++ "\n"
  ++ "- Chief Complaint: " ++ req.encounter.chiefComplaint ++ "\n"
  ++ "- Diagnosis: " ++ req.encounter.diagnosis ++ "\n\n"
  ++ "DIAGNOSTIC TESTS TO VALIDATE:\n"

/-- The fixed part of the `_prepare_test_message` f-string after the
interpolated test list. -/
def test_message_footer : String :=
  "\n\nPlease analyze for:\n"
  ++ "1. Test appropriateness for age and gender\n"
  ++ "2. Relevance to chief complaint and diagnosis\n"
  ++ "3. Any contraindications based on patient condition\n"
  ++ "4. Redundant or duplicate tests\n"
  ++ "5. Test sequencing or priority issues\n"
  ++ "6. Missing critical tests that should be ordered\n"
  ++ "7. Priority and urgency appropriateness\n\n"
  ++ "Respond with a JSON object containing:\n"
  ++ "\x7b\n  \"quick_summary\": \x7b\n"
  ++ "    \"overall_status\": \"SAFE|CAUTION|CONTRAINDICATED\",\n"
  ++ "    \"top_priority\": \"Most critical issue or 'No critical issues found'\"\n"
  ++ "  \x7d,\n"
  ++ "  \"detailed_validations\": [\n    \x7b\n"
  ++ "      \"item\": \"test name\",\n"
  ++ "      \"severity\": \"critical|high|moderate|low|info\",\n"
  ++ "      \"issue\": \"description of the issue\",\n"
  ++ "      \"recommendation\": \"recommended action\",\n"
  ++ "      \"evidence\": \"clinical reasoning\"\n"
  ++ "    \x7d\n  ],\n"
  ++ "  \"recommended_alternatives\": [\n    \x7b\n"
  ++ "      \"original_item\": \"test name\",\n"
  ++ "      \"alternative\": \"suggested alternative or additional test\",\n"
  ++ "      \"rationale\": \"reason for recommendation\"\n"
  ++ "    \x7d\n  ],\n"
  ++ "  \"confidence_score\": 0.95\n\x7d\n"

/-- The service's `_prepare_test_message`. -/
def prepare_test_message (req : TestValidationRequest) : String :=
  test_message_header req
  ++ format_tests req.tests
  ++ test_message_footer

/-- Failures `validate` can propagate: a terminal completion-client error, or
the wrapped response-parse error. -/
inductive ValidateError where
  | callFailure : CallError → ValidateError
  | responseParseFailure : ValidateError
deriving Repr, DecidableEq

/-- The orchestrator `MedicationValidationService.validate`: build the user
message, run `call_openai`, then parse the returned JSON exactly once; either
step's failure propagates unchanged.  Returns the result paired with the
number of completion attempts performed. -/
def MedicationValidationService.validate (att : ℕ → AttemptOutcome)
    (now : String) (req : MedicationValidationRequest) :
    Except ValidateError ValidationResponse × ℕ :=
  let _user_message := prepare_medication_message req
  match call_openai att with
  | (.ok api_response, n) =>
    match parse_validation_response now api_response with
    | some result => (.ok result, n)
    | none => (.error .responseParseFailure, n)
  | (.error e, n) => (.error (.callFailure e), n)

/-! Concrete raw replies used as test vectors below. -/

/-- Key/value pairs of the spec's end-to-end scenario A raw reply. -/
def scenarioAkvs : List (String × Json) :=
  [("quick_summary", .obj [("overall_status", .str "SAFE"),
                           ("top_priority", .str "No critical issues found")]),
   ("detailed_validations", .arr []),
   ("recommended_alternatives", .arr []),
   ("confidence_score", .num (mkRat 19 20))]

/-- The scenario A raw reply as a JSON value. -/
def scenarioA : Json := .obj scenarioAkvs

/-- The response scenario A parses to, at clock reading `t`. -/
def respA (t : String) : ValidationResponse :=
  { quick_summary := { overall_status := "SAFE",
                       top_priority := "No critical issues found" },
    detailed_validations := [],
    recommended_alternatives := [],
    confidence_score := mkRat 19 20,
    timestamp := t }

/-- A raw reply whose only key is a well-formed `quick_summary`: both list
keys and the confidence key are absent. -/
def minimalKvs : List (String × Json) :=
  [("quick_summary", .obj [("overall_status", .str "CAUTION"),
                           ("top_priority", .str "Check dosing")])]

/-- The response the minimal reply parses to, at clock reading `t`. -/
def minimalResp (t : String) : ValidationResponse :=
  { quick_summary := { overall_status := "CAUTION",
                       top_priority := "Check dosing" },
    detailed_validations := [],
    recommended_alternatives := [],
    confidence_score := float0_85,
    timestamp := t }

/-- Key/value pairs of one detailed validation whose severity, `"fatal"`, is
outside the documented severity set. -/
def fatalElemKvs : List (String × Json) :=
  [("item", .str "Aspirin"),
   ("severity", .str "fatal"),
   ("issue", .str "Overdose"),
   ("recommendation", .str "Stop")]

/-- A raw reply, well-formed everywhere, carrying that out-of-set severity. -/
def fatalSeverityApi : Json :=
  .obj [("quick_summary", .obj [("overall_status", .str "CAUTION"),
                                ("top_priority", .str "Overdose")]),
        ("detailed_validations", .arr [.obj fatalElemKvs]),
        ("recommended_alternatives", .arr []),
        ("confidence_score", .num (mkRat 9 10))]

/-- The response the out-of-set-severity reply parses to. -/
def fatalSeverityResp (t : String) : ValidationResponse :=
  { quick_summary := { overall_status := "CAUTION", top_priority := "Overdose" },
    detailed_validations :=
      [{ item := "Aspirin", severity := "fatal", issue := "Overdose",
         recommendation := "Stop", evidence := none }],
    recommended_alternatives := [],
    confidence_score := mkRat 9 10,
    timestamp := t }

/-- A raw reply identical to the minimal one except that `confidence_score`
is present as the non-numeric string `"abc"`. -/
def abcConfidenceKvs : List (String × Json) :=
  minimalKvs ++ [("confidence_score", .str "abc")]

/-- A raw reply, well-formed elsewhere, claiming confidence 1.5. -/
def overConfidenceApi : Json :=
  .obj (minimalKvs ++ [("confidence_score", .num (mkRat 3 2))])

/-- A raw reply whose `overall_status` is the out-of-enum string
`"UNKNOWN"`. -/
def unknownStatusApi : Json :=
  .obj [("quick_summary", .obj [("overall_status", .str "UNKNOWN"),
                                ("top_priority", .str "n/a")])]


/-! Structural lemmas about the parser. -/

/-- Characterization of a successful `parse_validation_response`: all four
field groups parsed and the confidence score passed the pydantic range
check, and the result assembles them with the construction-time clock. -/
theorem parse_eq_some_iff (now : String) (api : Json) (r : ValidationResponse) :
    parse_validation_response now api = some r ↔
      ∃ qs dvs ras cs,
        parseQuickSummary api = some qs ∧ parseDetailed api = some dvs ∧
        parseAlternatives api = some ras ∧
        parseConfidence api = some (.finite cs) ∧
        ((0 : ℚ) ≤ cs ∧ cs ≤ 1) ∧
        r = { quick_summary := qs, detailed_validations := dvs,
              recommended_alternatives := ras, confidence_score := cs,
              timestamp := now } := by
  unfold parse_validation_response
  cases hqs : parseQuickSummary api <;>
    cases hdv : parseDetailed api <;>
      cases hra : parseAlternatives api <;>
        cases hcs : parseConfidence api <;>
          try simp_all
  case _ v =>
    cases v <;> simp_all
    intro _ _
    exact eq_comm

/-- The string-field validation succeeds exactly on JSON strings. -/
theorem asStr_eq_some {j : Json} {s : String} : asStr j = some s ↔ j = .str s := by
  cases j <;> simp [asStr]


/-- A successful `parseQuickSummary` exhibits the two required paths as
strings in the raw mapping, with `overall_status` inside the allowed enum. -/
theorem parseQuickSummary_eq_some {api : Json} {qs : QuickSummary}
    (h : parseQuickSummary api = some qs) :
    ∃ qsJ, api.get? "quick_summary" = some qsJ ∧
      qsJ.get? "overall_status" = some (.str qs.overall_status) ∧
      qsJ.get? "top_priority" = some (.str qs.top_priority) ∧
      qs.overall_status ∈ statusAllowed := by
  simp only [parseQuickSummary, mkQuickSummary, bind, Option.bind_eq_some] at h
  obtain ⟨qsJ, hq, osJ, hos, tpJ, htp, os, hso, h⟩ := h
  split at h
  · simp only [bind, Option.bind_eq_some, Option.pure_def, Option.some.injEq] at h
    obtain ⟨tp, hst, heq⟩ := h
    subst heq
    exact ⟨qsJ, hq, by rw [hos, asStr_eq_some.1 hso],
           by rw [htp, asStr_eq_some.1 hst], by assumption⟩
  · cases h

/-- When the `detailed_validations` key is absent, the parsed list defaults
to empty. -/
theorem parseDetailed_absent {kvs : List (String × Json)}
    (h : lookupStr kvs "detailed_validations" = none) :
    parseDetailed (.obj kvs) = some [] := by
  simp [parseDetailed, Json.getD?, h, asIterList, List.mapM, List.mapM.loop]

/-- When the `detailed_validations` key holds a list, the parsed list is the
element-wise, order-preserving image of it. -/
theorem parseDetailed_arr {kvs : List (String × Json)} {l : List Json}
    (h : lookupStr kvs "detailed_validations" = some (.arr l)) :
    parseDetailed (.obj kvs) = l.mapM mkDetailedValidation := by
  simp [parseDetailed, Json.getD?, h, asIterList]

/-- When the `recommended_alternatives` key is absent, the parsed list
defaults to empty. -/
theorem parseAlternatives_absent {kvs : List (String × Json)}
    (h : lookupStr kvs "recommended_alternatives" = none) :
    parseAlternatives (.obj kvs) = some [] := by
  simp [parseAlternatives, Json.getD?, h, asIterList, List.mapM, List.mapM.loop]

/-- When the `recommended_alternatives` key holds a list, the parsed list is
the element-wise, order-preserving image of it. -/
theorem parseAlternatives_arr {kvs : List (String × Json)} {l : List Json}
    (h : lookupStr kvs "recommended_alternatives" = some (.arr l)) :
    parseAlternatives (.obj kvs) = l.mapM mkRecommendedAlternative := by
  simp [parseAlternatives, Json.getD?, h, asIterList]

/-- A successful `RecommendedAlternative(**v)` exhibits all three required
fields as strings in `v`. -/
theorem mkRecommendedAlternative_eq_some {akvs : List (String × Json)}
    {a : RecommendedAlternative}
    (h : mkRecommendedAlternative (.obj akvs) = some a) :
    lookupStr akvs "original_item" = some (.str a.original_item) ∧
    lookupStr akvs "alternative" = some (.str a.alternative) ∧
    lookupStr akvs "rationale" = some (.str a.rationale) := by
  simp only [mkRecommendedAlternative, bind, Option.bind_eq_some, Option.pure_def,
    Option.some.injEq] at h
  obtain ⟨oJ, ho, aJ, ha, rJ, hr, o, hso, av, hsa, rat, hsr, heq⟩ := h
  subst heq
  exact ⟨by rw [ho, asStr_eq_some.1 hso], by rw [ha, asStr_eq_some.1 hsa],
         by rw [hr, asStr_eq_some.1 hsr]⟩

/-- A successful `DetailedValidation(**v)` exhibits the four required fields
as strings in `v`. -/
theorem mkDetailedValidation_eq_some {kvs : List (String × Json)}
    {d : DetailedValidation}
    (h : mkDetailedValidation (.obj kvs) = some d) :
    lookupStr kvs "item" = some (.str d.item) ∧
    lookupStr kvs "severity" = some (.str d.severity) ∧
    lookupStr kvs "issue" = some (.str d.issue) ∧
    lookupStr kvs "recommendation" = some (.str d.recommendation) := by
  simp only [mkDetailedValidation, bind, Option.bind_eq_some, Option.pure_def,
    Option.some.injEq] at h
  obtain ⟨itemJ, hi, sevJ, hs, issJ, hu, recJ, hc, item, hsi, sev, hss, iss, hsu,
    recomm, hsc, ev, hev, heq⟩ := h
  subst heq
  exact ⟨by rw [hi, asStr_eq_some.1 hsi], by rw [hs, asStr_eq_some.1 hss],
         by rw [hu, asStr_eq_some.1 hsu], by rw [hc, asStr_eq_some.1 hsc]⟩

/-- A failing confidence extraction fails the whole parse. -/
theorem parse_none_of_confidence_none {now : String} {api : Json}
    (h : parseConfidence api = none) :
    parse_validation_response now api = none := by
  unfold parse_validation_response
  cases hqs : parseQuickSummary api <;>
    cases hdv : parseDetailed api <;>
      cases hra : parseAlternatives api <;>
        simp_all

/-- Checks of the `float()` string model against CPython results: exponent
notation, round-to-nearest with ties to even at the 53-bit boundary, the
binary64 value of 0.85, non-ASCII digits, digit-group underscores, overflow
to infinity, underflow to zero, signed infinity and nan literals, and
rejected inputs. -/
theorem pyFloatOfString_model_checks :
    pyFloatOfString "5e-1" = some (.finite (mkRat 1 2)) ∧
    pyFloatOfString "1.0000000000000000001" = some (.finite 1) ∧
    pyFloatOfString "0.85" = some (.finite float0_85) ∧
    pyFloatOfString "0.95" = some (.finite (mkRat 4278419646001971 4503599627370496)) ∧
    pyFloatOfString "9007199254740993" = some (.finite (mkRat 9007199254740992 1)) ∧
    pyFloatOfString "1_0.5" = some (.finite (mkRat 21 2)) ∧
    pyFloatOfString "٠.٥" = some (.finite (mkRat 1 2)) ∧
    pyFloatOfString "1.8e308" = some (.inf false) ∧
    pyFloatOfString "1e-324" = some (.finite 0) ∧
    pyFloatOfString " -Infinity " = some (.inf true) ∧
    pyFloatOfString "NaN" = some .nan ∧
    pyFloatOfString "1e" = none ∧
    pyFloatOfString "1__0" = none ∧
    pyFloatOfString "abc" = none := by
  refine ⟨by decide, by decide, by decide, by decide, by decide, by decide, by decide,
          by decide, by decide, by decide, by decide, by decide, by decide, by decide⟩

/-! Claim theorems. -/

/-- C3: a raw mapping whose `confidence_score` coerces under `float()` to a
value strictly above 1.0 or strictly below 0.0 (in IEEE comparisons, so
including infinities) fails parsing rather than being clamped, and every
successfully parsed response has `confidence_score` inside the closed
interval [0, 1]. -/
theorem confidence_range_enforced (now : String) (api : Json) :
    (∀ v : PyFloatVal, parseConfidence api = some v → (v.gtOne ∨ v.ltZero) →
      parse_validation_response now api = none) ∧
    (∀ r : ValidationResponse, parse_validation_response now api = some r →
      0 ≤ r.confidence_score ∧ r.confidence_score ≤ 1) := by
  constructor
  · intro v hv hout
    cases hp : parse_validation_response now api with
    | none => rfl
    | some r =>
      obtain ⟨qs, dvs, ras, cs, _, _, _, hcs, hrange, _⟩ :=
        (parse_eq_some_iff now api r).1 hp
      rw [hv] at hcs
      obtain rfl : v = .finite cs := Option.some.inj hcs
      simp only [PyFloatVal.gtOne, PyFloatVal.ltZero] at hout
      rcases hout with hgt | hlt
      · exact absurd hrange.2 (by linarith)
      · exact absurd hrange.1 (by linarith)
  · intro r hp
    obtain ⟨qs, dvs, ras, cs, _, _, _, _, hrange, hr⟩ :=
      (parse_eq_some_iff now api r).1 hp
    rw [hr]
    exact hrange

/-- Witness for C3 at concrete inputs: a reply claiming confidence 1.5 fails
parsing, and the scenario A reply parses with its score inside [0, 1]. -/
theorem confidence_range_enforced_witness :
    parse_validation_response "T" overConfidenceApi = none ∧
    (0 ≤ (respA "T").confidence_score ∧ (respA "T").confidence_score ≤ 1) :=
  ⟨(confidence_range_enforced "T" overConfidenceApi).1 (.finite (mkRat 3 2)) rfl
      (Or.inl (by show (1 : ℚ) < mkRat 3 2; rw [Rat.mkRat_eq_div]; norm_num)),
   (confidence_range_enforced "T" scenarioA).2 (respA "T") (by decide)⟩

/-- C4: parsing succeeds only when the path `quick_summary.overall_status`
is present with a string value inside SAFE/CAUTION/CONTRAINDICATED and
`quick_summary.top_priority` is present as a string; the parsed summary
carries exactly those strings. -/
theorem overall_status_required_and_enumerated (now : String) (api : Json)
    (r : ValidationResponse)
    (h : parse_validation_response now api = some r) :
    ∃ qsJ, api.get? "quick_summary" = some qsJ ∧
      qsJ.get? "overall_status" = some (.str r.quick_summary.overall_status) ∧
      qsJ.get? "top_priority" = some (.str r.quick_summary.top_priority) ∧
      r.quick_summary.overall_status ∈ statusAllowed := by
  obtain ⟨qs, dvs, ras, cs, hqs, _, _, _, _, hr⟩ :=
    (parse_eq_some_iff now api r).1 h
  rw [hr]
  exact parseQuickSummary_eq_some hqs

/-- Witness for C4 at the scenario A reply. -/
theorem overall_status_required_and_enumerated_witness :
    ∃ qsJ, scenarioA.get? "quick_summary" = some qsJ ∧
      qsJ.get? "overall_status" = some (.str (respA "T").quick_summary.overall_status) ∧
      qsJ.get? "top_priority" = some (.str (respA "T").quick_summary.top_priority) ∧
      (respA "T").quick_summary.overall_status ∈ statusAllowed :=
  overall_status_required_and_enumerated "T" scenarioA (respA "T") (by decide)

/-- C8: on a raw mapping with a well-formed quick summary, an absent
`detailed_validations` key yields the empty list and an absent
`recommended_alternatives` key yields the empty list; keys present as lists
are parsed element-wise in order, and each parsed alternative exhibits its
three required fields in the input element. -/
theorem list_defaults_and_elementwise (now : String)
    (kvs : List (String × Json)) (r : ValidationResponse)
    (h : parse_validation_response now (.obj kvs) = some r) :
    (lookupStr kvs "detailed_validations" = none → r.detailed_validations = []) ∧
    (lookupStr kvs "recommended_alternatives" = none →
      r.recommended_alternatives = []) ∧
    (∀ l, lookupStr kvs "detailed_validations" = some (.arr l) →
      l.mapM mkDetailedValidation = some r.detailed_validations) ∧
    (∀ l, lookupStr kvs "recommended_alternatives" = some (.arr l) →
      l.mapM mkRecommendedAlternative = some r.recommended_alternatives) ∧
    (∀ akvs a, mkRecommendedAlternative (.obj akvs) = some a →
      lookupStr akvs "original_item" = some (.str a.original_item) ∧
      lookupStr akvs "alternative" = some (.str a.alternative) ∧
      lookupStr akvs "rationale" = some (.str a.rationale)) := by
  obtain ⟨qs, dvs, ras, cs, _, hdv, hra, _, _, hr⟩ :=
    (parse_eq_some_iff now (.obj kvs) r).1 h
  subst hr
  refine ⟨?_, ?_, ?_, ?_, fun akvs a ha => mkRecommendedAlternative_eq_some ha⟩
  · intro habs
    have := parseDetailed_absent habs
    rw [this] at hdv
    exact (Option.some.inj hdv).symm
  · intro habs
    have := parseAlternatives_absent habs
    rw [this] at hra
    exact (Option.some.inj hra).symm
  · intro l hl
    have := parseDetailed_arr hl
    rw [this] at hdv
    exact hdv
  · intro l hl
    have := parseAlternatives_arr hl
    rw [this] at hra
    exact hra

/-- Witness for C8: the minimal reply (both list keys absent) parses to
empty lists, and the scenario A reply (keys present as empty lists) parses
element-wise to empty lists with confidence 0.95. -/
theorem list_defaults_and_elementwise_witness :
    ((minimalResp "T").detailed_validations = [] ∧
      (minimalResp "T").recommended_alternatives = []) ∧
    (([] : List Json).mapM mkDetailedValidation =
        some (respA "T").detailed_validations ∧
      ([] : List Json).mapM mkRecommendedAlternative =
        some (respA "T").recommended_alternatives) ∧
    (respA "T").confidence_score = mkRat 19 20 :=
  ⟨⟨(list_defaults_and_elementwise "T" minimalKvs (minimalResp "T")
        (by decide)).1 rfl,
    (list_defaults_and_elementwise "T" minimalKvs (minimalResp "T")
        (by decide)).2.1 rfl⟩,
   ⟨(list_defaults_and_elementwise "T" scenarioAkvs (respA "T")
        (by decide)).2.2.1 [] rfl,
    (list_defaults_and_elementwise "T" scenarioAkvs (respA "T")
        (by decide)).2.2.2.1 [] rfl⟩,
   by decide⟩

/-- C9: parsing the same raw mapping at two clock readings yields responses
equal in every field except the timestamp, which is the locally supplied
clock value, never taken from the input. -/
theorem parse_idempotent_mod_timestamp (raw : Json) (t1 t2 : String)
    (r1 r2 : ValidationResponse)
    (h1 : parse_validation_response t1 raw = some r1)
    (h2 : parse_validation_response t2 raw = some r2) :
    r1.quick_summary = r2.quick_summary ∧
    r1.detailed_validations = r2.detailed_validations ∧
    r1.recommended_alternatives = r2.recommended_alternatives ∧
    r1.confidence_score = r2.confidence_score ∧
    r1.timestamp = t1 ∧ r2.timestamp = t2 := by
  obtain ⟨qs, dvs, ras, cs, hqs, hdv, hra, hcs, _, hr1⟩ :=
    (parse_eq_some_iff t1 raw r1).1 h1
  obtain ⟨qs', dvs', ras', cs', hqs', hdv', hra', hcs', _, hr2⟩ :=
    (parse_eq_some_iff t2 raw r2).1 h2
  rw [hqs] at hqs'
  rw [hdv] at hdv'
  rw [hra] at hra'
  rw [hcs] at hcs'
  obtain rfl := Option.some.inj hqs'
  obtain rfl := Option.some.inj hdv'
  obtain rfl := Option.some.inj hra'
  obtain rfl := PyFloatVal.finite.inj (Option.some.inj hcs')
  subst hr1
  subst hr2
  exact ⟨rfl, rfl, rfl, rfl, rfl, rfl⟩

/-- Witness for C9: the scenario A reply parsed at clocks "t1" and "t2". -/
theorem parse_idempotent_mod_timestamp_witness :
    (respA "t1").quick_summary = (respA "t2").quick_summary ∧
    (respA "t1").detailed_validations = (respA "t2").detailed_validations ∧
    (respA "t1").recommended_alternatives = (respA "t2").recommended_alternatives ∧
    (respA "t1").confidence_score = (respA "t2").confidence_score ∧
    (respA "t1").timestamp = "t1" ∧ (respA "t2").timestamp = "t2" :=
  parse_idempotent_mod_timestamp scenarioA "t1" "t2" (respA "t1") (respA "t2")
    (by decide) (by decide)

/-! Lemmas about the retry loop. -/

/-- Unrolling the retry loop over failing attempts up to a succeeding
attempt: if all attempts before index `k - 1` fail and attempt `k - 1`
decodes JSON `v`, the loop started anywhere at or before `k - 1` returns `v`
after exactly `k` attempts. -/
theorem callFromAux_ok (att : ℕ → AttemptOutcome) (max k : ℕ) (v : Json)
    (hk : 1 ≤ k) (hkm : k ≤ max)
    (hfail : ∀ j < k - 1, (att j).isFailure = true)
    (hsucc : att (k - 1) = .jsonOk v) :
    ∀ fuel i, fuel + i = max → i ≤ k - 1 →
      callFromAux att max fuel i = (.ok v, k) := by
  intro fuel
  induction fuel with
  | zero =>
    intro i hsum hik
    exfalso
    omega
  | succ n ih =>
    intro i hsum hik
    by_cases hlast : i = k - 1
    · subst hlast
      have h1 : k - 1 + 1 = k := by omega
      simp [callFromAux, hsucc, h1]
    · have hlt : i < k - 1 := by omega
      have hf := hfail i hlt
      have hne : i ≠ max - 1 := by omega
      cases hai : att i with
      | jsonOk w => rw [hai] at hf; cases hf
      | nonJson =>
        simp only [callFromAux, hai, if_neg hne]
        exact ih (i + 1) (by omega) (by omega)
      | serviceError m =>
        simp only [callFromAux, hai, if_neg hne]
        exact ih (i + 1) (by omega) (by omega)

/-- Unrolling the retry loop when every attempt fails: the loop started
anywhere before the end raises the terminal error of the last attempt's
failure class, after exactly `max` attempts. -/
theorem callFromAux_all_fail (att : ℕ → AttemptOutcome) (max : ℕ)
    (hfail : ∀ j < max, (att j).isFailure = true) :
    ∀ fuel i, fuel + i = max → i < max →
      callFromAux att max fuel i =
        (.error (terminalError (att (max - 1))), max) := by
  intro fuel
  induction fuel with
  | zero =>
    intro i hsum him
    exfalso
    omega
  | succ n ih =>
    intro i hsum him
    have hf := hfail i him
    by_cases hlast : i = max - 1
    · subst hlast
      cases hai : att (max - 1) with
      | jsonOk w => rw [hai] at hf; cases hf
      | nonJson =>
        have h1 : max - 1 + 1 = max := by omega
        simp [callFromAux, hai, terminalError, h1]
      | serviceError m =>
        have h1 : max - 1 + 1 = max := by omega
        simp [callFromAux, hai, terminalError, h1]
    · cases hai : att i with
      | jsonOk w => rw [hai] at hf; cases hf
      | nonJson =>
        simp only [callFromAux, hai, if_neg hlast]
        exact ih (i + 1) (by omega) (by omega)
      | serviceError m =>
        simp only [callFromAux, hai, if_neg hlast]
        exact ih (i + 1) (by omega) (by omega)

/-- C5: when the completion call fails on attempts 1 through k-1 and the
k-th attempt (k at most the configured maximum) returns JSON-parseable
text, `call_openai` returns the decoded JSON value and performs exactly k
attempts. -/
theorem retry_succeeds_at_k (att : ℕ → AttemptOutcome) (max k : ℕ) (v : Json)
    (hk : 1 ≤ k) (hkm : k ≤ max)
    (hfail : ∀ j < k - 1, (att j).isFailure = true)
    (hsucc : att (k - 1) = .jsonOk v) :
    call_openai_with att max = (.ok v, k) :=
  callFromAux_ok att max k v hk hkm hfail hsucc max 0 (by omega) (by omega)

/-- Witness for C5: first attempt errors, second decodes JSON, with the
default maximum of 3: the result is returned after exactly 2 attempts. -/
theorem retry_succeeds_at_k_witness :
    call_openai_with (fun j => if j = 0 then .serviceError "boom" else .jsonOk .null)
      settings.MAX_RETRY_ATTEMPTS = (.ok .null, 2) :=
  retry_succeeds_at_k _ settings.MAX_RETRY_ATTEMPTS 2 .null (by decide) (by decide)
    (by decide) rfl

/-- C6: when every attempt fails, `call_openai` performs exactly the
configured maximum number of attempts and raises a single terminal error
whose message distinguishes a JSON-decode failure of the returned text from
a service-call failure, according to the last attempt's error class. -/
theorem retry_exhausts_at_max (att : ℕ → AttemptOutcome) (max : ℕ)
    (hmax : 1 ≤ max)
    (hfail : ∀ j < max, (att j).isFailure = true) :
    call_openai_with att max = (.error (terminalError (att (max - 1))), max) ∧
    (att (max - 1) = .nonJson →
      (terminalError (att (max - 1))).message =
        "Failed to parse OpenAI response as JSON") ∧
    (∀ m, att (max - 1) = .serviceError m →
      (terminalError (att (max - 1))).message = "OpenAI API call failed: " ++ m) := by
  refine ⟨callFromAux_all_fail att max hfail max 0 (by omega) (by omega), ?_, ?_⟩
  · intro hlast
    rw [hlast]
    rfl
  · intro m hlast
    rw [hlast]
    rfl

/-- Witness for C6: all three attempts return non-JSON text ⇒ the loop
stops after exactly 3 attempts with the JSON-decode terminal message. -/
theorem retry_exhausts_at_max_witness :
    call_openai_with (fun _ => .nonJson) settings.MAX_RETRY_ATTEMPTS =
      (.error .parseJsonFailure, 3) ∧
    CallError.parseJsonFailure.message = "Failed to parse OpenAI response as JSON" :=
  ⟨(retry_exhausts_at_max (fun _ => .nonJson) settings.MAX_RETRY_ATTEMPTS
      (by decide) (by decide)).1,
   (retry_exhausts_at_max (fun _ => .nonJson) settings.MAX_RETRY_ATTEMPTS
      (by decide) (by decide)).2.1 rfl⟩

/-- C7: when `call_openai` succeeds after j attempts with a JSON value that
fails schema validation, the orchestrator raises the parse failure at once
with exactly those j completion attempts performed: the retry budget never
applies to schema-invalid payloads. -/
theorem no_retry_on_schema_invalid (att : ℕ → AttemptOutcome) (now : String)
    (req : MedicationValidationRequest) (v : Json) (j : ℕ)
    (hcall : call_openai att = (.ok v, j))
    (hparse : parse_validation_response now v = none) :
    MedicationValidationService.validate att now req =
      (.error .responseParseFailure, j) := by
  unfold MedicationValidationService.validate
  simp only [hcall, hparse]

/-- A concrete medication request with an empty medication list. -/
def emptyMedReq : MedicationValidationRequest :=
  { patient := { mrn := "1000", fullName := "John Doe", gender := "Male",
                 dob := "2022-02-02" },
    encounter := { visitId := "160", visitType := "Urgent Visit",
                   plannedStartDate := "2025-12-24",
                   chiefComplaint := "Chest pain", patientAge := "3y 10m 22d",
                   diagnosis := "I20.0,Unstable angina" },
    complain := "Chest pain",
    diagnosis := { type := "Encounter Diagnosis", value := "I20.0,Unstable angina" },
    medications := [] }

/-- A concrete test request with an empty test list. -/
def emptyTestReq : TestValidationRequest :=
  { patient := { mrn := "1000", fullName := "John Doe", gender := "Male",
                 dob := "2022-02-02" },
    encounter := { visitId := "160", visitType := "Urgent Visit",
                   plannedStartDate := "2025-12-24",
                   chiefComplaint := "Chest pain", patientAge := "3y 10m 22d",
                   diagnosis := "I20.0,Unstable angina" },
    complain := "Chest pain",
    diagnosis := { type := "Encounter Diagnosis", value := "I20.0,Unstable angina" },
    tests := [] }

/-- Witness for C7: a first attempt returning `overall_status: "UNKNOWN"`
JSON makes `validate` fail after exactly 1 completion attempt. -/
theorem no_retry_on_schema_invalid_witness :
    MedicationValidationService.validate (fun _ => .jsonOk unknownStatusApi) "T"
      emptyMedReq = (.error .responseParseFailure, 1) :=
  no_retry_on_schema_invalid (fun _ => .jsonOk unknownStatusApi) "T" emptyMedReq
    unknownStatusApi 1 rfl (by decide)

/-- Counterexample to C1: a raw reply whose detailed validation carries the
severity `"fatal"`, outside critical/high/moderate/low/info, parses
successfully — the parser never checks the severity string. -/
theorem severity_outside_enum_parses :
    "fatal" ∉ severityLevels ∧
    parse_validation_response "T" fatalSeverityApi = some (fatalSeverityResp "T") ∧
    (fatalSeverityResp "T").detailed_validations.map DetailedValidation.severity
      = ["fatal"] :=
  ⟨by decide, by decide, by decide⟩

/-- C1 as amended: each parsed detailed validation must supply item,
severity, issue and recommendation as strings (evidence optional), but the
severity value is an arbitrary string — an element with any severity parses,
with the severity copied through unchanged. -/
theorem detailed_validation_fields_required_severity_unchecked
    (kvs : List (String × Json)) (d : DetailedValidation) :
    (mkDetailedValidation (.obj kvs) = some d →
      lookupStr kvs "item" = some (.str d.item) ∧
      lookupStr kvs "severity" = some (.str d.severity) ∧
      lookupStr kvs "issue" = some (.str d.issue) ∧
      lookupStr kvs "recommendation" = some (.str d.recommendation)) ∧
    (∀ item sev iss recomm : String,
      mkDetailedValidation (.obj [("item", .str item), ("severity", .str sev),
        ("issue", .str iss), ("recommendation", .str recomm)]) =
        some { item := item, severity := sev, issue := iss,
               recommendation := recomm, evidence := none }) := by
  constructor
  · exact fun h => mkDetailedValidation_eq_some h
  · intro item sev iss recomm
    rfl

/-- Witness for the amended C1 at the concrete `"fatal"` element and at a
made-up severity string. -/
theorem detailed_validation_fields_required_severity_unchecked_witness :
    (lookupStr fatalElemKvs "item" = some (.str "Aspirin") ∧
     lookupStr fatalElemKvs "severity" = some (.str "fatal") ∧
     lookupStr fatalElemKvs "issue" = some (.str "Overdose") ∧
     lookupStr fatalElemKvs "recommendation" = some (.str "Stop")) ∧
    mkDetailedValidation (.obj [("item", .str "A"), ("severity", .str "weird"),
      ("issue", .str "I"), ("recommendation", .str "R")]) =
      some { item := "A", severity := "weird", issue := "I",
             recommendation := "R", evidence := none } :=
  ⟨(detailed_validation_fields_required_severity_unchecked fatalElemKvs
      { item := "Aspirin", severity := "fatal", issue := "Overdose",
        recommendation := "Stop", evidence := none }).1 rfl,
   (detailed_validation_fields_required_severity_unchecked fatalElemKvs
      { item := "Aspirin", severity := "fatal", issue := "Overdose",
        recommendation := "Stop", evidence := none }).2 "A" "weird" "I" "R"⟩

/-- Counterexample to C2: a raw reply whose `confidence_score` is present as
the non-numeric string `"abc"` fails parsing instead of defaulting to 0.85,
though the same reply without the key parses fine (with the 0.85 default). -/
theorem nonnumeric_confidence_not_defaulted :
    parse_validation_response "T" (.obj abcConfidenceKvs) = none ∧
    parse_validation_response "T" (.obj minimalKvs) = some (minimalResp "T") :=
  ⟨by decide, by decide⟩

/-- C2 as amended: an absent `confidence_score` key defaults to the double
0.85 (the other fields being well-formed), while a key present with a value
that `float()` cannot coerce makes the whole parse fail. -/
theorem confidence_default_amended (now : String) (kvs : List (String × Json)) :
    (∀ qs dvs ras,
      parseQuickSummary (.obj kvs) = some qs →
      parseDetailed (.obj kvs) = some dvs →
      parseAlternatives (.obj kvs) = some ras →
      lookupStr kvs "confidence_score" = none →
      parse_validation_response now (.obj kvs) =
        some { quick_summary := qs, detailed_validations := dvs,
               recommended_alternatives := ras,
               confidence_score := float0_85, timestamp := now }) ∧
    (∀ j, lookupStr kvs "confidence_score" = some j → pyFloat j = none →
      parse_validation_response now (.obj kvs) = none) := by
  constructor
  · intro qs dvs ras hqs hdv hra habs
    have hcs : parseConfidence (.obj kvs) = some (.finite float0_85) := by
      simp [parseConfidence, Json.getD?, habs, pyFloat]
    exact (parse_eq_some_iff now (.obj kvs) _).2
      ⟨qs, dvs, ras, float0_85, hqs, hdv, hra, hcs, by decide, rfl⟩
  · intro j hj hfl
    apply parse_none_of_confidence_none
    simp [parseConfidence, Json.getD?, hj, hfl]

/-- Witness for the amended C2: the minimal reply without the key parses to
confidence 0.85, and with `"abc"` in the key it fails. -/
theorem confidence_default_amended_witness :
    parse_validation_response "T2" (.obj minimalKvs) = some (minimalResp "T2") ∧
    parse_validation_response "T2" (.obj abcConfidenceKvs) = none :=
  ⟨(confidence_default_amended "T2" minimalKvs).1
      { overall_status := "CAUTION", top_priority := "Check dosing" } [] []
      rfl rfl rfl rfl,
   (confidence_default_amended "T2" abcConfidenceKvs).2 (.str "abc") rfl (by decide)⟩

/-- C10: with an empty medication or test list the prompt builder still
succeeds: the numbered item rendering is the empty string and the user
message is the surrounding template with an empty items section. -/
theorem empty_items_prompt_ok (req : MedicationValidationRequest)
    (treq : TestValidationRequest)
    (hm : req.medications = []) (ht : treq.tests = []) :
    format_medications req.medications = "" ∧
    format_tests treq.tests = "" ∧
    prepare_medication_message req =
      medication_message_header req ++ "" ++ medication_message_footer ∧
    prepare_test_message treq =
      test_message_header treq ++ "" ++ test_message_footer := by
  have h1 : format_medications [] = "" := by decide
  have h2 : format_tests [] = "" := by decide
  refine ⟨by rw [hm, h1], by rw [ht, h2], ?_, ?_⟩
  · unfold prepare_medication_message
    rw [hm, h1]
  · unfold prepare_test_message
    rw [ht, h2]

/-- Witness for C10 at concrete requests with empty item lists. -/
theorem empty_items_prompt_ok_witness :
    format_medications emptyMedReq.medications = "" ∧
    format_tests emptyTestReq.tests = "" ∧
    prepare_medication_message emptyMedReq =
      medication_message_header emptyMedReq ++ "" ++ medication_message_footer ∧
    prepare_test_message emptyTestReq =
      test_message_header emptyTestReq ++ "" ++ test_message_footer :=
  empty_items_prompt_ok emptyMedReq emptyTestReq rfl rfl
